import Mathlib

/-
  Verification of the variant-set data model, the active-tab matching
  algorithm, input validation, and persistence flows of the Domain and
  Protocol Switcher browser extension (src/script/index.js).

  The popup script keeps a Collection (a list of VariantSets, each a list
  of Variants) under the single storage key "domains", matches the active
  tab against it, and offers switch / add / delete operations.  The
  definitions below embed those operations; the theorems settle the
  behavioural claims about them.
-/

/-- A Variant: one named endpoint, a display name together with a
(protocol, domain) pair.  Mirrors the record literals
{ name, protocol, domain } built in addNewDomainVariantGroup. -/
structure Variant where
  name : String
  protocol : String
  domain : String
deriving DecidableEq

/-- A VariantSet is an ordered list of Variants; the Collection persisted
under the "domains" key is an ordered list of VariantSets. -/
abbrev VariantSet := List Variant

abbrev Collection := List VariantSet

/-- The per-item test of loadDomains (lines 172-175):
item.protocol === currentProtocol && item.domain === currentDomain.
JavaScript === on strings is exact, case-sensitive equality, embedded
here as boolean string equality. -/
def variantMatches (p h : String) (v : Variant) : Bool :=
  v.protocol == p && v.domain == h

/-- The set-level test of loadDomains (line 171): set.some(item => ...). -/
def setMatches (p h : String) (s : VariantSet) : Bool :=
  s.any (variantMatches p h)

/-- The matching scan of loadDomains (lines 170-177):
domains.find(set => set.some(item => ...)).  Array.prototype.find scans
in order and returns the first hit, none when there is no hit. -/
def findMatchingSet (p h : String) (c : Collection) : Option VariantSet :=
  c.find? (setMatches p h)

/-- The switch-button rendering loop of loadDomains (lines 194-206):
currentDomainSet.forEach renders a button for item exactly when
item.domain !== currentDomain.  Note the comparison looks only at the
domain, not at the protocol. -/
def otherVariants (h : String) (s : VariantSet) : List Variant :=
  s.filter (fun v => v.domain != h)

/-- The variants for which loadDomains renders switch buttons: the
members of the first matching set passing the domain filter, and nothing
at all when no set matches (lines 180-206). -/
def displayedVariants (p h : String) (c : Collection) : List Variant :=
  match findMatchingSet p h c with
  | none => []
  | some s => otherVariants h s

/-- The whitespace class removed by JavaScript String.prototype.trim at
the edges of a string (ASCII portion: space, tab, line feed, carriage
return, vertical tab, form feed). -/
def isJsWS (c : Char) : Bool :=
  c == ' ' || c == '\t' || c == '\n' || c == '\r' ||
    c == Char.ofNat 11 || c == Char.ofNat 12

/-- Removing leading and trailing whitespace from a character list:
drop the whitespace run at the front, then the one at the back. -/
def trimChars (l : List Char) : List Char :=
  ((l.dropWhile isJsWS).reverse.dropWhile isJsWS).reverse

/-- JavaScript String.prototype.trim, used on every form field read in
addNewDomainVariantGroup (lines 53-57 and 100-102). -/
def jsTrim (s : String) : String :=
  ⟨trimChars s.data⟩

/-- A character-list version of JavaScript String.prototype.startsWith,
used to build the substring test below. -/
def leadsWith : List Char → List Char → Bool
  | [], _ => true
  | _ :: _, [] => false
  | a :: pa, b :: lb => a == b && leadsWith pa lb

/-- Occurrence of pat as a contiguous subsequence of the list: the
recursion behind JavaScript String.prototype.includes. -/
def hasSeq (pat : List Char) : List Char → Bool
  | [] => leadsWith pat []
  | b :: lb => leadsWith pat (b :: lb) || hasSeq pat lb

/-- JavaScript String.prototype.includes, used for the "://" and "/"
domain checks in addNewDomainVariantGroup (lines 71 and 79). -/
def jsIncludes (s pat : String) : Bool :=
  hasSeq pat.data s.data

/-- One variant-group row of the add form: the raw values of the three
input fields before trimming. -/
structure RawGroup where
  nameInput : String
  protocolInput : String
  domainInput : String
deriving DecidableEq

/-- The validation failures alerted by addNewDomainVariantGroup, in the
order their checks appear in the source (lines 59-94). -/
inductive VError where
  | badProtocol
  | emptyDomain
  | domainHasScheme
  | domainHasSlash
  | emptyName
deriving DecidableEq

/-- The validation chain of addNewDomainVariantGroup (lines 53-94) for
one variant-group row: the fields are trimmed, then checked in order --
protocol must be "http" or "https", domain must be non-empty, must not
contain "://", must not contain "/", and the name must be non-empty --
stopping at the first failing check (the callback returns at each
alert). -/
def validateCandidate (g : RawGroup) : Option VError :=
  let protocolInput := jsTrim g.protocolInput
  let domainInput := jsTrim g.domainInput
  let nameInput := jsTrim g.nameInput
  if protocolInput ≠ "http" ∧ protocolInput ≠ "https" then some .badProtocol
  else if domainInput = "" then some .emptyDomain
  else if jsIncludes domainInput "://" then some .domainHasScheme
  else if jsIncludes domainInput "/" then some .domainHasSlash
  else if nameInput = "" then some .emptyName
  else none

/-- The alert stream of the variantGroups.forEach validation loop
(lines 52-95): for each row in order, the first failing check produces
one alert naming the row by its 1-based position (the messages
interpolate index + 1); the loop then moves on to the next row.  The
accumulator k is the 0-based position of the first remaining row. -/
def alertsFrom (k : Nat) : List RawGroup → List (Nat × VError)
  | [] => []
  | g :: gs =>
    ((validateCandidate g).map fun e => (k + 1, e)).toList ++ alertsFrom (k + 1) gs

/-- All validation alerts raised by one run of
addNewDomainVariantGroup's forEach loop, tagged with the 1-based row
position each message reports. -/
def validationAlerts (gs : List RawGroup) : List (Nat × VError) :=
  alertsFrom 0 gs

/-- The maxlength="30" attribute carried by the name input of every
variant-group row (addVariant, line 303 of src/script/index.js): the
browser does not let a name longer than 30 characters be entered. -/
def formAllowsName (s : String) : Bool :=
  s.length ≤ 30

/-- The Variant a row is turned into once the loop has run (lines
98-104): every field is the trimmed value of its input. -/
def buildVariant (g : RawGroup) : Variant :=
  ⟨jsTrim g.nameInput, jsTrim g.protocolInput, jsTrim g.domainInput⟩

/-- The new variant set built from all rows of the form (lines 98-104):
Array.from(variantGroups).map, preserving row order. -/
def thisVariantSet (gs : List RawGroup) : VariantSet :=
  gs.map buildVariant

/-- The synced storage under the "domains" key: none models a store that
was never written.  chrome.storage.sync.get({ domains: [] }) yields the
stored collection, with [] as the default for an absent key. -/
def loadCollection (st : Option Collection) : Collection :=
  st.getD []

/-- The persistence step of addNewDomainVariantGroup (lines 106-126):
read the stored collection (default []), copy it, push the new variant
set at the end, and write the result back. -/
def storeAppend (s : VariantSet) (st : Option Collection) : Option Collection :=
  some (loadCollection st ++ [s])

/-- The full addNewDomainVariantGroup handler (lines 50-127): the
forEach validation loop raises its alerts, and then -- unconditionally,
because the early returns only leave the forEach callback, never the
enclosing function -- the variant set built from all rows is appended
and persisted.  Returns the alerts raised and the storage state after
the handler. -/
def addNewDomainVariantGroup (gs : List RawGroup) (st : Option Collection) :
    List (Nat × VError) × Option Collection :=
  (validationAlerts gs, storeAppend (thisVariantSet gs) st)

/-- One stored variant set together with its JavaScript object identity:
distinct array elements produced by distinct pushes are distinct
objects, so a run of the code keeps the first components pairwise
distinct even when two sets are equal by value. -/
abbrev StoredSet := Nat × VariantSet

/-- The matching test lifted to identity-tagged sets. -/
def storedSetMatches (p h : String) (e : StoredSet) : Bool :=
  setMatches p h e.2

/-- The Delete All Domain Variants handler (loadDomains lines 216-222):
currentDomainSet is the set found by the first-match scan, and
domains.filter(set => set !== currentDomainSet) keeps exactly the
elements that are not that same object -- comparison is by object
identity, embedded as the identity tag.  When no set matches, the
delete button is never rendered, so the collection is untouched. -/
def deleteAllDomainVariants (p h : String) (c : List StoredSet) :
    List StoredSet :=
  match c.find? (storedSetMatches p h) with
  | none => c
  | some m => c.filter (fun e => e.1 != m.1)

/-- The mutable URL record of the WHATWG URL interface, as used by
switchDomain: new URL(tab.url) exposes protocol (scheme plus the
trailing colon), credentials, hostname, port, pathname, search and
hash as independently assignable components. -/
structure JsURL where
  protocol : String
  username : String
  password : String
  hostname : String
  port : Option Nat
  pathname : String
  search : String
  hash : String
deriving DecidableEq

/-- Assignment url.protocol = v (switchDomain line 32). -/
def jsSetProtocol (u : JsURL) (v : String) : JsURL :=
  { u with protocol := v }

/-- Assignment url.hostname = v (switchDomain line 33): only the
hostname component is replaced, never the port or the credentials. -/
def jsSetHostname (u : JsURL) (v : String) : JsURL :=
  { u with hostname := v }

/-- The userinfo part of the serialized URL: empty unless credentials
are present. -/
def userInfoString (u : JsURL) : String :=
  if u.username = "" ∧ u.password = "" then ""
  else u.username ++ (if u.password = "" then "" else ":" ++ u.password) ++ "@"

/-- The port part of the serialized URL. -/
def portString (u : JsURL) : String :=
  match u.port with
  | none => ""
  | some n => ":" ++ toString n

/-- The path-query-fragment tail of the serialized URL. -/
def urlTail (u : JsURL) : String :=
  u.pathname ++ u.search ++ u.hash

/-- url.toString() (switchDomain line 34): scheme, authority, then the
path, query and fragment tail. -/
def serializeURL (u : JsURL) : String :=
  u.protocol ++ "//" ++ userInfoString u ++ u.hostname ++ portString u ++ urlTail u

/-- The URL rewrite of switchDomain (lines 31-34): assign
url.protocol = newProtocol + ":" and then url.hostname = newDomain; the
tab is navigated to the serialization of the result. -/
def switchDomain (newProtocol newDomain : String) (u : JsURL) : JsURL :=
  jsSetHostname (jsSetProtocol u (newProtocol ++ ":")) newDomain

/-- C1: findMatchingSet scans the Collection in order and returns the
first VariantSet containing a Variant whose (protocol, domain) pair is
exactly (string-, hence case-sensitively) equal to the current tab's
pair, and returns none when no VariantSet contains such a Variant. -/
theorem matching_first_match_wins (p h : String) (c : Collection) :
    (∀ s : VariantSet, findMatchingSet p h c = some s ↔
        setMatches p h s = true ∧
        ∃ pre post, c = pre ++ s :: post ∧ ∀ t ∈ pre, setMatches p h t = false)
    ∧ (findMatchingSet p h c = none ↔ ∀ s ∈ c, setMatches p h s = false)
    ∧ (∀ s : VariantSet, setMatches p h s = true ↔
        ∃ v ∈ s, v.protocol = p ∧ v.domain = h) := by
  refine ⟨fun s => ?_, ?_, fun s => ?_⟩
  · rw [findMatchingSet, List.find?_eq_some]
    simp
  · rw [findMatchingSet, List.find?_eq_none]
    simp
  · simp [setMatches, List.any_eq_true, variantMatches, Bool.and_eq_true,
      beq_iff_eq]

/-- C3 counterexample: the claim says a member of the matched set with
the same domain as the current tab but a different protocol is included
among the returned other variants.  In the code the filter at line 196
compares item.domain !== currentDomain only, so such a member is
dropped.  With the set { A: http://example.com, B: https://example.com }
and the current tab at http://example.com, member B has a pair that
differs from the tab's, yet the rendered list is empty. -/
theorem other_variants_drops_protocol_twins :
    let vA : Variant := ⟨"A", "http", "example.com"⟩
    let vB : Variant := ⟨"B", "https", "example.com"⟩
    findMatchingSet "http" "example.com" [[vA, vB]] = some [vA, vB] ∧
    vB ∈ [vA, vB] ∧
    ¬ (vB.protocol = "http" ∧ vB.domain = "example.com") ∧
    displayedVariants "http" "example.com" [[vA, vB]] = [] := by
  refine ⟨?_, ?_, ?_, ?_⟩ <;> decide

/-- C3 amended: for a matched VariantSet, the rendered other variants
are exactly those members whose domain differs from the current host --
the protocol is ignored by the comparison, so a member sharing the
current domain under a different protocol is excluded -- preserving the
set's original insertion order; and when no set matches, nothing is
rendered. -/
theorem other_variants_characterisation (p h : String) (s : VariantSet) :
    (∀ v : Variant, v ∈ otherVariants h s ↔ v ∈ s ∧ v.domain ≠ h)
    ∧ (otherVariants h s).Sublist s
    ∧ (∀ c : Collection, findMatchingSet p h c = none →
        displayedVariants p h c = []) := by
  refine ⟨fun v => ?_, ?_, fun c hc => ?_⟩
  · simp [otherVariants, List.mem_filter]
  · exact List.filter_sublist s
  · simp [displayedVariants, hc]

/-- C3 amended witness at the spec's own scenario: Collection
[[Live: https://example.com, Test: https://test.example.com]], with the
active tab at https://unrelated.com there is no match and nothing is
rendered; the membership characterisation at https://example.com keeps
exactly the Test member. -/
theorem other_variants_characterisation_witness :
    displayedVariants "https" "unrelated.com"
      [[⟨"Live", "https", "example.com"⟩,
        ⟨"Test", "https", "test.example.com"⟩]] = [] :=
  (other_variants_characterisation "https" "unrelated.com" []).2.2
    [[⟨"Live", "https", "example.com"⟩,
      ⟨"Test", "https", "test.example.com"⟩]] (by decide)

/-- C2 (code bug): validation does not abort the add flow.  The early
returns in addNewDomainVariantGroup leave only the forEach callback, so
after alerting the handler still builds the variant set from all rows
and persists it.  With the single row (name "X", protocol "ftp", domain
"example.com") over an empty stored collection, the bad-protocol alert
fires and the invalid set is persisted anyway: the stored collection is
changed, against the stated abort-on-failure behaviour and against the
code's own comment that the set is built "now that everything is
validated". -/
theorem invalid_rows_are_still_persisted :
    let g : RawGroup := ⟨"X", "ftp", "example.com"⟩
    (addNewDomainVariantGroup [g] (some [])).1 = [(1, VError.badProtocol)] ∧
    loadCollection (addNewDomainVariantGroup [g] (some [])).2 =
      [[⟨"X", "ftp", "example.com"⟩]] ∧
    loadCollection (addNewDomainVariantGroup [g] (some [])).2 ≠ [] := by
  refine ⟨?_, ?_, ?_⟩ <;> decide

/-- C4: appending a variant set and loading yields the old collection
with the new set at the end: the length grows by one, every previously
stored set is still at its old position, and the last entry is the new
set itself, unchanged. -/
theorem add_then_load_round_trip (st : Option Collection) (s : VariantSet)
    (hne : s ≠ []) :
    loadCollection (storeAppend s st) = loadCollection st ++ [s] ∧
    (loadCollection (storeAppend s st)).length = (loadCollection st).length + 1 ∧
    (∀ i : Nat, i < (loadCollection st).length →
        (loadCollection (storeAppend s st))[i]? = (loadCollection st)[i]?) ∧
    (loadCollection (storeAppend s st)).getLast? = some s := by
  refine ⟨rfl, by simp [loadCollection, storeAppend], fun i hi => ?_, ?_⟩
  · show ((loadCollection st) ++ [s])[i]? = (loadCollection st)[i]?
    rw [List.getElem?_append, if_pos hi]
  · exact List.getLast?_concat _

/-- C4 witness: adding the one-member set Live: https://example.com to
the empty collection and loading returns it as the last (and only)
entry. -/
theorem add_then_load_round_trip_witness :
    (loadCollection (storeAppend [⟨"Live", "https", "example.com"⟩] (some []))).getLast? =
      some [⟨"Live", "https", "example.com"⟩] :=
  (add_then_load_round_trip (some []) [⟨"Live", "https", "example.com"⟩]
    (by decide)).2.2.2

/-- Helper: when the matched element's identity tag occurs nowhere else
in the stored list, the identity filter of the delete handler removes
exactly the matched element and keeps everything else in place. -/
theorem deleteAll_first_match_eq (p h : String)
    (pre post : List StoredSet) (m : StoredSet)
    (hpre_id : ∀ e ∈ pre, e.1 ≠ m.1) (hpost_id : ∀ e ∈ post, e.1 ≠ m.1)
    (hm : setMatches p h m.2 = true)
    (hpre : ∀ t ∈ pre, setMatches p h t.2 = false) :
    deleteAllDomainVariants p h (pre ++ m :: post) = pre ++ post := by
  have hfind : (pre ++ m :: post).find? (storedSetMatches p h) = some m := by
    rw [List.find?_eq_some]
    refine ⟨hm, pre, post, rfl, fun a ha => ?_⟩
    simp [storedSetMatches, hpre a ha]
  rw [deleteAllDomainVariants, hfind]
  show List.filter (fun e => e.1 != m.1) (pre ++ m :: post) = pre ++ post
  rw [List.filter_append, List.filter_cons]
  have hself : (m.1 != m.1) = false := by simp
  rw [hself]
  simp only [if_false, Bool.false_eq_true]
  rw [List.filter_eq_self.mpr fun a ha => by simp [hpre_id a ha],
    List.filter_eq_self.mpr fun a ha => by simp [hpost_id a ha]]

/-- Helper: the identity tags of a collection assembled by the add flow
are pairwise distinct; from their Nodup the matched element's tag occurs
in neither the prefix nor the suffix. -/
theorem deleteAll_eq_of_nodup_ids (p h : String)
    (pre post : List StoredSet) (m : StoredSet)
    (hids : ((pre ++ m :: post).map Prod.fst).Nodup)
    (hm : setMatches p h m.2 = true)
    (hpre : ∀ t ∈ pre, setMatches p h t.2 = false) :
    deleteAllDomainVariants p h (pre ++ m :: post) = pre ++ post := by
  rw [List.map_append, List.map_cons, List.nodup_append] at hids
  obtain ⟨-, hnd2, hdisj⟩ := hids
  have hpre_id : ∀ e ∈ pre, e.1 ≠ m.1 := by
    intro e he heq
    exact hdisj (List.mem_map_of_mem Prod.fst he)
      (heq ▸ List.mem_cons_self m.1 (post.map Prod.fst))
  have hpost_id : ∀ e ∈ post, e.1 ≠ m.1 := by
    intro e he heq
    exact (List.nodup_cons.mp hnd2).1 (heq ▸ List.mem_map_of_mem Prod.fst he)
  exact deleteAll_first_match_eq p h pre post m hpre_id hpost_id hm hpre

/-- C5: when some stored set matches the current tab, Delete All Domain
Variants removes exactly the first matching set and leaves every other
set unchanged, by value and in its original relative order. -/
theorem delete_removes_exactly_matched (p h : String)
    (pre post : List StoredSet) (m : StoredSet)
    (hids : ((pre ++ m :: post).map Prod.fst).Nodup)
    (hm : setMatches p h m.2 = true)
    (hpre : ∀ t ∈ pre, setMatches p h t.2 = false) :
    deleteAllDomainVariants p h (pre ++ m :: post) = pre ++ post :=
  deleteAll_eq_of_nodup_ids p h pre post m hids hm hpre

/-- C5 witness: with the live set between two unrelated sets, deleting
at https://example.com removes exactly the live set. -/
theorem delete_removes_exactly_matched_witness :
    deleteAllDomainVariants "https" "example.com"
      [(0, [⟨"Other", "https", "other.com"⟩]),
       (1, [⟨"Live", "https", "example.com"⟩]),
       (2, [⟨"X", "http", "x.com"⟩])] =
      [(0, [⟨"Other", "https", "other.com"⟩]), (2, [⟨"X", "http", "x.com"⟩])] :=
  delete_removes_exactly_matched "https" "example.com"
    [(0, [⟨"Other", "https", "other.com"⟩])]
    [(2, [⟨"X", "http", "x.com"⟩])]
    (1, [⟨"Live", "https", "example.com"⟩])
    (by decide) (by decide) (by decide)

/-- C10: removal is by object identity of the matched set, so when a
later stored set is equal by value to the first matching one, only the
first-scan instance is removed and the later duplicate survives in the
persisted collection. -/
theorem delete_keeps_value_duplicates (p h : String)
    (pre post : List StoredSet) (m e : StoredSet)
    (hids : ((pre ++ m :: post).map Prod.fst).Nodup)
    (hm : setMatches p h m.2 = true)
    (hpre : ∀ t ∈ pre, setMatches p h t.2 = false)
    (he : e ∈ post) (hdup : e.2 = m.2) :
    deleteAllDomainVariants p h (pre ++ m :: post) = pre ++ post ∧
    e ∈ deleteAllDomainVariants p h (pre ++ m :: post) := by
  have heq := deleteAll_eq_of_nodup_ids p h pre post m hids hm hpre
  exact ⟨heq, heq ▸ List.mem_append_right pre he⟩

/-- C10 witness: two by-value-equal one-member sets both matching
https://example.com; deleting keeps the second instance. -/
theorem delete_keeps_value_duplicates_witness :
    deleteAllDomainVariants "https" "example.com"
      [(0, [⟨"Live", "https", "example.com"⟩]),
       (1, [⟨"Live", "https", "example.com"⟩])] =
      [(1, [⟨"Live", "https", "example.com"⟩])] ∧
    (1, [⟨"Live", "https", "example.com"⟩]) ∈
      deleteAllDomainVariants "https" "example.com"
        [(0, [⟨"Live", "https", "example.com"⟩]),
         (1, [⟨"Live", "https", "example.com"⟩])] :=
  delete_keeps_value_duplicates "https" "example.com" []
    [(1, [⟨"Live", "https", "example.com"⟩])]
    (0, [⟨"Live", "https", "example.com"⟩])
    (1, [⟨"Live", "https", "example.com"⟩])
    (by decide) (by decide) (by decide) (by decide) (by decide)

/-- C7: switchDomain replaces only the scheme and the hostname of the
tab's URL with the target values; the path, query and fragment
components are untouched, and the serialized navigation target is the
original URL with just those two components exchanged. -/
theorem switch_rewrites_only_scheme_and_host (u : JsURL) (np nd : String) :
    (switchDomain np nd u).protocol = np ++ ":" ∧
    (switchDomain np nd u).hostname = nd ∧
    (switchDomain np nd u).pathname = u.pathname ∧
    (switchDomain np nd u).search = u.search ∧
    (switchDomain np nd u).hash = u.hash ∧
    urlTail (switchDomain np nd u) = urlTail u ∧
    serializeURL (switchDomain np nd u) =
      np ++ ":" ++ "//" ++ userInfoString u ++ nd ++ portString u ++ urlTail u := by
  exact ⟨rfl, rfl, rfl, rfl, rfl, rfl, rfl⟩

/-- C9: switchDomain assigns the hostname, never the host-with-port, so
an explicit port survives the switch, as do the username and password
components; on a concrete URL with credentials and port 8080 the
navigation target keeps both. -/
theorem switch_preserves_port_and_credentials (u : JsURL) (np nd : String) :
    (switchDomain np nd u).port = u.port ∧
    (switchDomain np nd u).username = u.username ∧
    (switchDomain np nd u).password = u.password ∧
    portString (switchDomain np nd u) = portString u ∧
    userInfoString (switchDomain np nd u) = userInfoString u ∧
    serializeURL (switchDomain "https" "example.org"
      ⟨"http:", "user", "pw", "localhost", some 8080, "/a", "?q=1", "#frag"⟩) =
      "https://user:pw@example.org:8080/a?q=1#frag" := by
  refine ⟨rfl, rfl, rfl, rfl, rfl, ?_⟩
  decide

/-- Helper: a row failing at 0-based offset i contributes an alert
tagged k + i + 1 to the alert stream started at accumulator k. -/
theorem alertsFrom_of_validate (gs : List RawGroup) :
    ∀ (k i : Nat) (hi : i < gs.length) (e : VError),
      validateCandidate (gs.get ⟨i, hi⟩) = some e →
      (k + i + 1, e) ∈ alertsFrom k gs := by
  induction gs with
  | nil => intro k i hi; exact absurd hi (by simp)
  | cons g t ih =>
    intro k i hi e hv
    cases i with
    | zero =>
      have hv' : validateCandidate g = some e := hv
      simp [alertsFrom, hv']
    | succ j =>
      have hj : j < t.length := by simpa using hi
      have hmem := ih (k + 1) j hj e hv
      have harith : (k + 1) + j + 1 = k + (j + 1) + 1 := by omega
      rw [harith] at hmem
      simp only [alertsFrom, List.mem_append]
      exact Or.inr hmem

/-- Helper: every alert in the stream started at accumulator k comes
from the row at 0-based offset n - k - 1, and its tag determines that
offset. -/
theorem validate_of_mem_alertsFrom (gs : List RawGroup) :
    ∀ (k n : Nat) (e : VError), (n, e) ∈ alertsFrom k gs →
      ∃ i, ∃ hi : i < gs.length, n = k + i + 1 ∧
        validateCandidate (gs.get ⟨i, hi⟩) = some e := by
  induction gs with
  | nil => intro k n e h; simp [alertsFrom] at h
  | cons g t ih =>
    intro k n e h
    simp only [alertsFrom, List.mem_append] at h
    rcases h with hhead | htail
    · cases hg : validateCandidate g with
      | none => rw [hg] at hhead; simp at hhead
      | some e' =>
        rw [hg] at hhead
        simp only [Option.map_some', Option.toList_some, List.mem_singleton,
          Prod.mk.injEq] at hhead
        obtain ⟨hn, he⟩ := hhead
        exact ⟨0, by simp, by omega, by simp [List.get, hg, he]⟩
    · obtain ⟨j, hj, hn, hv⟩ := ih (k + 1) n e htail
      exact ⟨j + 1, by simpa using Nat.succ_lt_succ hj, by omega, hv⟩

/-- C6: each form row is validated in the fixed order protocol is http
or https, domain non-empty, domain lacks "://", domain lacks "/", name
non-empty, stopping at the first failing check; a failure is alerted
against the row's 1-based position; names over 30 characters are kept
out by the form's maxlength attribute; and the spec's concrete bad
inputs are each rejected while a well-formed row passes. -/
theorem validation_order_and_reporting :
    (∀ g : RawGroup,
      (jsTrim g.protocolInput ≠ "http" ∧ jsTrim g.protocolInput ≠ "https" →
        validateCandidate g = some VError.badProtocol) ∧
      ((jsTrim g.protocolInput = "http" ∨ jsTrim g.protocolInput = "https") →
        jsTrim g.domainInput = "" →
        validateCandidate g = some VError.emptyDomain) ∧
      ((jsTrim g.protocolInput = "http" ∨ jsTrim g.protocolInput = "https") →
        jsTrim g.domainInput ≠ "" →
        jsIncludes (jsTrim g.domainInput) "://" = true →
        validateCandidate g = some VError.domainHasScheme) ∧
      ((jsTrim g.protocolInput = "http" ∨ jsTrim g.protocolInput = "https") →
        jsTrim g.domainInput ≠ "" →
        jsIncludes (jsTrim g.domainInput) "://" = false →
        jsIncludes (jsTrim g.domainInput) "/" = true →
        validateCandidate g = some VError.domainHasSlash) ∧
      ((jsTrim g.protocolInput = "http" ∨ jsTrim g.protocolInput = "https") →
        jsTrim g.domainInput ≠ "" →
        jsIncludes (jsTrim g.domainInput) "://" = false →
        jsIncludes (jsTrim g.domainInput) "/" = false →
        jsTrim g.nameInput = "" →
        validateCandidate g = some VError.emptyName))
    ∧ (∀ (gs : List RawGroup) (i : Nat) (hi : i < gs.length) (e : VError),
        (i + 1, e) ∈ validationAlerts gs ↔
          validateCandidate (gs.get ⟨i, hi⟩) = some e)
    ∧ validateCandidate ⟨"My Site", "ftp", "example.com"⟩ = some VError.badProtocol
    ∧ validateCandidate ⟨"My Site", "https", ""⟩ = some VError.emptyDomain
    ∧ validateCandidate ⟨"My Site", "https", "http://example.com"⟩ =
        some VError.domainHasScheme
    ∧ validateCandidate ⟨"My Site", "https", "example.com/path"⟩ =
        some VError.domainHasSlash
    ∧ validateCandidate ⟨"", "https", "example.com"⟩ = some VError.emptyName
    ∧ formAllowsName ⟨List.replicate 31 'a'⟩ = false
    ∧ formAllowsName "A reasonably sized name" = true
    ∧ validateCandidate ⟨"My Site", "https", "example.com"⟩ = none := by
  refine ⟨fun g => ⟨?_, ?_, ?_, ?_, ?_⟩, ?_, ?_, ?_, ?_, ?_, ?_, ?_, ?_, ?_⟩
  · intro hbad
    simp only [validateCandidate]
    rw [if_pos hbad]
  · intro hp hd
    have hnot : ¬ (jsTrim g.protocolInput ≠ "http" ∧ jsTrim g.protocolInput ≠ "https") := by
      rcases hp with h | h <;> simp [h]
    simp only [validateCandidate]
    rw [if_neg hnot, if_pos hd]
  · intro hp hd hs
    have hnot : ¬ (jsTrim g.protocolInput ≠ "http" ∧ jsTrim g.protocolInput ≠ "https") := by
      rcases hp with h | h <;> simp [h]
    simp only [validateCandidate]
    rw [if_neg hnot, if_neg hd, if_pos hs]
  · intro hp hd hs hsl
    have hnot : ¬ (jsTrim g.protocolInput ≠ "http" ∧ jsTrim g.protocolInput ≠ "https") := by
      rcases hp with h | h <;> simp [h]
    simp only [validateCandidate]
    rw [if_neg hnot, if_neg hd, if_neg (by simp [hs]), if_pos hsl]
  · intro hp hd hs hsl hn
    have hnot : ¬ (jsTrim g.protocolInput ≠ "http" ∧ jsTrim g.protocolInput ≠ "https") := by
      rcases hp with h | h <;> simp [h]
    simp only [validateCandidate]
    rw [if_neg hnot, if_neg hd, if_neg (by simp [hs]), if_neg (by simp [hsl]),
      if_pos hn]
  · intro gs i hi e
    constructor
    · intro hmem
      obtain ⟨j, hj, hn, hv⟩ := validate_of_mem_alertsFrom gs 0 (i + 1) e hmem
      have hij : i = j := by omega
      subst hij
      exact hv
    · intro hv
      have := alertsFrom_of_validate gs 0 i hi e hv
      simpa [validationAlerts] using this
  all_goals decide

/-- C6 witness: a single row with protocol "ftp" produces exactly the
bad-protocol alert against position 1. -/
theorem validation_order_and_reporting_witness :
    (1, VError.badProtocol) ∈ validationAlerts [⟨"My Site", "ftp", "example.com"⟩] :=
  (validation_order_and_reporting.2.1 [⟨"My Site", "ftp", "example.com"⟩] 0
    (by decide) VError.badProtocol).mpr (by decide)

/-- Helper: dropping the whitespace run from an all-whitespace list
leaves nothing. -/
theorem dropWhile_ws_of_all (l : List Char) (h : ∀ c ∈ l, isJsWS c = true) :
    l.dropWhile isJsWS = [] := by
  induction l with
  | nil => rfl
  | cons a t ih =>
    rw [List.dropWhile_cons, if_pos (h a (by simp))]
    exact ih fun c hc => h c (by simp [hc])

/-- Helper: an all-whitespace ultimate run in front is removed whole by
dropWhile. -/
theorem dropWhile_ws_append_of_all (pad l : List Char)
    (h : ∀ c ∈ pad, isJsWS c = true) :
    (pad ++ l).dropWhile isJsWS = l.dropWhile isJsWS := by
  induction pad with
  | nil => rfl
  | cons a t ih =>
    rw [List.cons_append, List.dropWhile_cons, if_pos (h a (by simp))]
    exact ih fun c hc => h c (by simp [hc])

/-- Helper: trimming is blind to whitespace padding on either side. -/
theorem trimChars_pad (l p q : List Char)
    (hp : ∀ c ∈ p, isJsWS c = true) (hq : ∀ c ∈ q, isJsWS c = true) :
    trimChars (p ++ l ++ q) = trimChars l := by
  unfold trimChars
  rw [List.append_assoc, dropWhile_ws_append_of_all p (l ++ q) hp,
    List.dropWhile_append]
  by_cases hl : (l.dropWhile isJsWS).isEmpty
  · rw [if_pos hl, dropWhile_ws_of_all q hq]
    have hnil : l.dropWhile isJsWS = [] := List.isEmpty_iff.mp hl
    rw [hnil]
  · rw [if_neg hl, List.reverse_append,
      dropWhile_ws_append_of_all _ _
        (fun c hc => hq c (List.mem_reverse.mp hc))]

/-- Helper: jsTrim of a string padded with whitespace on both sides is
jsTrim of the string itself. -/
theorem jsTrim_pad (s : String) (p q : List Char)
    (hp : ∀ c ∈ p, isJsWS c = true) (hq : ∀ c ∈ q, isJsWS c = true) :
    jsTrim ⟨p ++ s.data ++ q⟩ = jsTrim s :=
  congrArg String.mk (trimChars_pad s.data p q hp hq)

/-- C8: the add flow stores only trimmed field values.  Whitespace
padding typed around any of the three form fields changes neither the
Variant that is persisted nor the validation outcome, and each persisted
field is exactly the trimmed value of its raw input. -/
theorem persisted_fields_are_trimmed (g : RawGroup)
    (pn sn pp sp pd sd : List Char)
    (hws : ∀ c ∈ pn ++ sn ++ pp ++ sp ++ pd ++ sd, isJsWS c = true) :
    buildVariant ⟨⟨pn ++ g.nameInput.data ++ sn⟩, ⟨pp ++ g.protocolInput.data ++ sp⟩,
        ⟨pd ++ g.domainInput.data ++ sd⟩⟩ = buildVariant g ∧
    validateCandidate ⟨⟨pn ++ g.nameInput.data ++ sn⟩, ⟨pp ++ g.protocolInput.data ++ sp⟩,
        ⟨pd ++ g.domainInput.data ++ sd⟩⟩ = validateCandidate g ∧
    (buildVariant g).name = jsTrim g.nameInput ∧
    (buildVariant g).protocol = jsTrim g.protocolInput ∧
    (buildVariant g).domain = jsTrim g.domainInput := by
  have hn : jsTrim ⟨pn ++ g.nameInput.data ++ sn⟩ = jsTrim g.nameInput :=
    jsTrim_pad g.nameInput pn sn (fun c hc => hws c (by simp [hc]))
      (fun c hc => hws c (by simp [hc]))
  have hp : jsTrim ⟨pp ++ g.protocolInput.data ++ sp⟩ = jsTrim g.protocolInput :=
    jsTrim_pad g.protocolInput pp sp (fun c hc => hws c (by simp [hc]))
      (fun c hc => hws c (by simp [hc]))
  have hd : jsTrim ⟨pd ++ g.domainInput.data ++ sd⟩ = jsTrim g.domainInput :=
    jsTrim_pad g.domainInput pd sd (fun c hc => hws c (by simp [hc]))
      (fun c hc => hws c (by simp [hc]))
  refine ⟨?_, ?_, rfl, rfl, rfl⟩
  · simp only [buildVariant]
    rw [hn, hp, hd]
  · simp only [validateCandidate]
    rw [hn, hp, hd]

/-- C8 witness: a single space around each field of the row
(My Site, https, example.com) changes neither the stored Variant nor
the validation outcome. -/
theorem persisted_fields_are_trimmed_witness :
    buildVariant ⟨⟨[' '] ++ "My Site".data ++ [' ']⟩, ⟨[' '] ++ "https".data ++ [' ']⟩,
        ⟨[' '] ++ "example.com".data ++ [' ']⟩⟩ =
      buildVariant ⟨"My Site", "https", "example.com"⟩ :=
  (persisted_fields_are_trimmed ⟨"My Site", "https", "example.com"⟩
    [' '] [' '] [' '] [' '] [' '] [' '] (by decide)).1
